import Mathlib

/-!
Verification development for the llm-api-layer repository: a multi-tenant
authentication gateway (Hapi.js + Redis) that issues and validates JWT
sessions and proxies chat requests to an Ollama inference service.

The embedding below is a shallow model of the TypeScript source:

* `src/types.ts` data interfaces become Lean structures.  TypeScript string
  union types (roles, statuses) are modelled as plain `String`.
* The Redis store becomes `Store`: a map from a typed `Key` (one constructor
  per key template used in the source, e.g. `tenant:id`, `tenant:domain:d`,
  `tenant:t:user:u`) to `Except String (Option Val)`.  An `Except.error`
  result on a read models a thrown driver error (store unreachable); `none`
  models an absent key.  `Val` is the parsed view of the stored string:
  `vTenant`/`vUser`/`vSession` stand for well-formed entity JSON, `vStr` for
  plain id strings or flags (whose `JSON.parse` as an entity throws), and
  `vSet` for a Redis set.  Writes are modelled as succeeding.
* Nondeterministic effects (uuidv4, bcrypt.hash, Date) are passed in as
  explicit parameters; bcrypt.compare is a parameter function.
* `async` route handlers become functions returning
  `Except ApiError result × Store`; a `.error` raised by a store operation
  corresponds to a thrown exception caught by the handler `catch` block.
-/

/-- Data interface Tenant from src/types.ts.  `settings` (a
`Record<string, any>`) is modelled as an association list of strings. -/
structure Tenant where
  tenantId : String
  name : String
  domain : String
  status : String
  createdAt : String
  updatedAt : Option String
  settings : List (String × String)
  deriving DecidableEq, Repr

/-- Data interface User from src/types.ts. -/
structure User where
  userId : String
  tenantId : String
  username : String
  email : String
  password : String
  role : String
  status : String
  createdAt : String
  updatedAt : Option String
  deriving DecidableEq, Repr

/-- Data interface UserWithoutPassword (`Omit<User, 'password'>`). -/
structure UserWithoutPassword where
  userId : String
  tenantId : String
  username : String
  email : String
  role : String
  status : String
  createdAt : String
  updatedAt : Option String
  deriving DecidableEq, Repr

/-- Data interface Session from src/types.ts. -/
structure Session where
  sessionId : String
  tenantId : String
  userId : String
  loginTime : String
  userAgent : Option String
  createdAt : String
  deriving DecidableEq, Repr

/-- Runtime effect of `const { password, ...userWithoutPassword } = user`. -/
def stripPassword (u : User) : UserWithoutPassword :=
  { userId := u.userId, tenantId := u.tenantId, username := u.username,
    email := u.email, role := u.role, status := u.status,
    createdAt := u.createdAt, updatedAt := u.updatedAt }

/-- Data interface JWTPayload from src/types.ts (claims embedded in a token). -/
structure JWTPayload where
  aud : String
  iss : String
  userId : String
  tenantId : String
  role : String
  deriving DecidableEq, Repr

/-- Data interface AuthCredentials from src/types.ts: the Principal a valid
token produces. -/
structure AuthCredentials where
  user : UserWithoutPassword
  tenantId : String
  scope : List String
  deriving DecidableEq, Repr

/-- Typed view of the Redis key templates used by the source
(`tenant:id`, `tenant:domain:d`, `tenants:all`, `tenant:t:user:u`,
`tenant:t:user:email:e`, `tenant:t:users`, `token:blacklist:tok`,
`session:sid`). -/
inductive Key where
  | tenant (tenantId : String)
  | domainIdx (domain : String)
  | tenantsAll
  | user (tenantId userId : String)
  | emailIdx (tenantId email : String)
  | usersSet (tenantId : String)
  | blacklist (token : String)
  | session (sessionId : String)
  deriving DecidableEq, Repr

/-- Parsed view of a stored Redis string value. -/
inductive Val where
  | vStr (s : String)
  | vTenant (t : Tenant)
  | vUser (u : User)
  | vSession (s : Session)
  | vSet (members : List String)
  deriving DecidableEq, Repr

/-- Credential Store state: each key either reads back a value, is absent, or
raises a driver error (modelling an unreachable store). -/
structure Store where
  kv : Key → Except String (Option Val)

/-- Redis `get`. -/
def storeGet (s : Store) (k : Key) : Except String (Option Val) := s.kv k

/-- Redis `exists` (the source compares the integer reply with 1 or uses it
as a truthy value). -/
def storeExists (s : Store) (k : Key) : Except String Bool :=
  match s.kv k with
  | .ok v => .ok v.isSome
  | .error e => .error e

/-- Redis `set` (also `setEx`; expiry is not modelled). -/
def storeSet (s : Store) (k : Key) (v : Val) : Store :=
  ⟨fun k' => if k' = k then .ok (some v) else s.kv k'⟩

/-- Redis `sAdd`: creates the set when absent, is idempotent on members,
raises on a non-set value. -/
def storeSAdd (s : Store) (k : Key) (x : String) : Except String Store :=
  match s.kv k with
  | .ok none => .ok (storeSet s k (.vSet [x]))
  | .ok (some (.vSet xs)) =>
      .ok (storeSet s k (.vSet (if x ∈ xs then xs else xs ++ [x])))
  | .ok (some _) => .error "WRONGTYPE"
  | .error e => .error e

/-- Redis `sMembers`: an absent key reads as the empty set. -/
def storeSMembers (s : Store) (k : Key) : Except String (List String) :=
  match s.kv k with
  | .ok none => .ok []
  | .ok (some (.vSet xs)) => .ok xs
  | .ok (some _) => .error "WRONGTYPE"
  | .error e => .error e

/-- Effect of `JSON.parse` on a stored value expected to be a tenant record. -/
def parseTenant : Val → Except String Tenant
  | .vTenant t => .ok t
  | _ => .error "malformed stored JSON"

/-- Effect of `JSON.parse` on a stored value expected to be a user record. -/
def parseUser : Val → Except String User
  | .vUser u => .ok u
  | _ => .error "malformed stored JSON"

/-- Effect of reading a plain string value (an id held by an index key). -/
def asId : Val → Except String String
  | .vStr s => .ok s
  | _ => .error "unexpected value type"

theorem storeSet_kv_eq (s : Store) (k : Key) (v : Val) :
    (storeSet s k v).kv k = .ok (some v) := by
  simp [storeSet]

theorem storeSet_kv_ne (s : Store) (k k' : Key) (v : Val) (h : k' ≠ k) :
    (storeSet s k v).kv k' = s.kv k' := by
  simp [storeSet, h]

/-! ### Token Issuer (generateToken, src/routes/auth.ts lines 36-54)

The `@hapi/jwt` signing envelope (HS256 signature, 4-hour ttl) is library
code outside the repository; the model keeps the payload the issuer builds.
-/

/-- Claims built by `generateToken` in src/routes/auth.ts. -/
def generateToken (user : UserWithoutPassword) (tenantId : String) : JWTPayload :=
  { aud := "urn:audience:api", iss := "urn:issuer:api",
    userId := user.userId, tenantId := tenantId, role := user.role }

/-! ### Token Validator / Auth Gate (src/plugins/auth.ts `validate`)

The JWT library has already verified signature, `nbf`, `exp`, and max age
before `validate` runs, so the model takes the decoded payload and the raw
token string as inputs, mirroring `artifacts.decoded.payload` and
`artifacts.token`. -/

/-- Outcome of the `validate` callback: `{ isValid: false }` or
`{ isValid: true, credentials }`. -/
inductive ValidateOutcome where
  | invalid
  | valid (credentials : AuthCredentials)
  deriving DecidableEq, Repr

/-- Truth value of the `isValid` field of a validate outcome. -/
def ValidateOutcome.isValid : ValidateOutcome → Bool
  | .invalid => false
  | .valid _ => true

/-- Body of the auth plugin `validate` callback (the part inside `try`):
blacklist check, tenant existence check, user load, principal construction.
A raised `.error` models a thrown exception (store unreachable, malformed
stored JSON). -/
def validateSteps (s : Store) (rawToken : String) (payload : JWTPayload) :
    Except String ValidateOutcome := do
  let isBlacklisted ← storeExists s (.blacklist rawToken)
  if isBlacklisted then return .invalid
  let tenantExists ← storeExists s (.tenant payload.tenantId)
  if !tenantExists then return .invalid
  let userData ← storeGet s (.user payload.tenantId payload.userId)
  match userData with
  | none => return .invalid
  | some v =>
    let user ← parseUser v
    return .valid
      { user := stripPassword user,
        tenantId := payload.tenantId,
        scope := if user.role = "admin" then ["admin", "user"] else ["user"] }

/-- Auth Gate `validate` with its surrounding `try`/`catch`: any exception
becomes `{ isValid: false }` (fail-closed). -/
def validate (s : Store) (rawToken : String) (payload : JWTPayload) :
    ValidateOutcome :=
  match validateSteps s rawToken payload with
  | .ok r => r
  | .error _ => .invalid

/-! ### Tenant/User Directory (src/services/tenantService.ts)

Generated ids, hashes and timestamps (`uuidv4()`, `bcrypt.hash`,
`new Date().toISOString()`) are passed in as explicit parameters. -/

/-- Data interface CreateTenantData from src/types.ts. -/
structure CreateTenantData where
  name : String
  domain : String
  settings : Option (List (String × String))
  deriving DecidableEq, Repr

/-- Data interface CreateUserData from src/types.ts. -/
structure CreateUserData where
  username : String
  email : String
  password : String
  role : Option String
  deriving DecidableEq, Repr

/-- Data interface UpdateTenantData from src/types.ts. -/
structure UpdateTenantData where
  name : Option String
  domain : Option String
  status : Option String
  settings : Option (List (String × String))
  deriving DecidableEq, Repr

/-- Data interface UpdateUserData from src/types.ts. -/
structure UpdateUserData where
  username : Option String
  email : Option String
  role : Option String
  status : Option String
  deriving DecidableEq, Repr

/-- Tenant record literal built inside createTenant
(`tenantData.settings || {}` defaults the settings). -/
def newTenant (tenantData : CreateTenantData) (tenantId now : String) :
    Tenant :=
  { tenantId := tenantId, name := tenantData.name,
    domain := tenantData.domain, status := "active", createdAt := now,
    updatedAt := none, settings := tenantData.settings.getD [] }

/-- Merged tenant record built inside updateTenant: the object spread
`{ ...tenant, ...updates, tenantId, updatedAt: now }` — provided fields win,
`tenantId` is re-pinned, `updatedAt` stamped. -/
def mergedTenant (tenant : Tenant) (updates : UpdateTenantData)
    (tenantId now : String) : Tenant :=
  { tenantId := tenantId,
    name := updates.name.getD tenant.name,
    domain := updates.domain.getD tenant.domain,
    status := updates.status.getD tenant.status,
    settings := updates.settings.getD tenant.settings,
    createdAt := tenant.createdAt,
    updatedAt := some now }

/-- User record literal built inside createUser
(`role: userData.role || 'user'` treats an absent or empty role as
`user`). -/
def newUser (tenantId : String) (userData : CreateUserData)
    (userId hashedPassword now : String) : User :=
  { userId := userId, tenantId := tenantId,
    username := userData.username, email := userData.email,
    password := hashedPassword,
    role := match userData.role with
      | none => "user"
      | some r => if r = "" then "user" else r,
    status := "active", createdAt := now, updatedAt := none }

/-- Merged user record built inside updateUser: the object spread
`{ ...user, ...updates, userId, tenantId, updatedAt: now }`. -/
def mergedUser (user : User) (updates : UpdateUserData)
    (userId tenantId now : String) : User :=
  { userId := userId, tenantId := tenantId,
    username := updates.username.getD user.username,
    email := updates.email.getD user.email,
    password := user.password,
    role := updates.role.getD user.role,
    status := updates.status.getD user.status,
    createdAt := user.createdAt, updatedAt := some now }

namespace TenantService

/-- TenantService.createTenant: builds the record, stores it, adds the id to
the global tenant set, and (when the domain string is truthy, i.e. nonempty)
writes the domain index.  It performs no duplicate-domain check. -/
def createTenant (s : Store) (tenantData : CreateTenantData)
    (tenantId now : String) : Except String (Tenant × Store) := do
  let tenant : Tenant := newTenant tenantData tenantId now
  let s1 := storeSet s (.tenant tenantId) (.vTenant tenant)
  let s2 ← storeSAdd s1 .tenantsAll tenantId
  let s3 := if tenantData.domain ≠ "" then
      storeSet s2 (.domainIdx tenantData.domain) (.vStr tenantId)
    else s2
  return (tenant, s3)

/-- TenantService.getTenant. -/
def getTenant (s : Store) (tenantId : String) :
    Except String (Option Tenant) := do
  match ← storeGet s (.tenant tenantId) with
  | none => return none
  | some v => return some (← parseTenant v)

/-- TenantService.getTenantByDomain: resolves the domain index then loads by
id. -/
def getTenantByDomain (s : Store) (domain : String) :
    Except String (Option Tenant) := do
  match ← storeGet s (.domainIdx domain) with
  | none => return none
  | some v =>
    let tenantId ← asId v
    getTenant s tenantId

/-- TenantService.updateTenant: merges the provided fields over the stored
record, re-pins `tenantId`, stamps `updatedAt`, and rewrites only the tenant
record key (the domain index is never touched). -/
def updateTenant (s : Store) (tenantId : String) (updates : UpdateTenantData)
    (now : String) : Except String (Option (Tenant × Store)) := do
  match ← getTenant s tenantId with
  | none => return none
  | some tenant =>
    let updatedTenant : Tenant := mergedTenant tenant updates tenantId now
    return some (updatedTenant,
      storeSet s (.tenant tenantId) (.vTenant updatedTenant))

/-- TenantService.createUser: hashes the password (hash passed in), stores
the record under a tenant-scoped key, adds the id to the tenant user set,
writes the tenant-scoped email index, and returns the user without the
password field.  `role: userData.role || 'user'` treats an absent or empty
role as `user`. -/
def createUser (s : Store) (tenantId : String) (userData : CreateUserData)
    (userId hashedPassword now : String) :
    Except String (UserWithoutPassword × Store) := do
  let user : User := newUser tenantId userData userId hashedPassword now
  let s1 := storeSet s (.user tenantId userId) (.vUser user)
  let s2 ← storeSAdd s1 (.usersSet tenantId) userId
  let s3 := storeSet s2 (.emailIdx tenantId userData.email) (.vStr userId)
  return (stripPassword user, s3)

/-- TenantService.getUserByEmail: resolves the tenant-scoped email index then
loads the full record, password hash included. -/
def getUserByEmail (s : Store) (tenantId email : String) :
    Except String (Option User) := do
  match ← storeGet s (.emailIdx tenantId email) with
  | none => return none
  | some v =>
    let userId ← asId v
    match ← storeGet s (.user tenantId userId) with
    | none => return none
    | some uv => return some (← parseUser uv)

/-- TenantService.getUser: loads a user and strips the password field. -/
def getUser (s : Store) (tenantId userId : String) :
    Except String (Option UserWithoutPassword) := do
  match ← storeGet s (.user tenantId userId) with
  | none => return none
  | some uv => return some (stripPassword (← parseUser uv))

/-- TenantService.getAllUsers: resolves the tenant user-id set then loads
each user, silently skipping ids whose record is absent. -/
def getAllUsers (s : Store) (tenantId : String) :
    Except String (List UserWithoutPassword) := do
  let userIds ← storeSMembers s (.usersSet tenantId)
  userIds.foldlM (fun users userId => do
    match ← getUser s tenantId userId with
    | none => return users
    | some u => return users ++ [u]) []

/-- TenantService.updateUser: merges the provided fields over the stored
record, re-pins ids, stamps `updatedAt`, rewrites the record, and returns it
without the password field (the email index is never touched). -/
def updateUser (s : Store) (tenantId userId : String)
    (updates : UpdateUserData) (now : String) :
    Except String (Option (UserWithoutPassword × Store)) := do
  match ← storeGet s (.user tenantId userId) with
  | none => return none
  | some uv =>
    let user ← parseUser uv
    let updatedUser : User := mergedUser user updates userId tenantId now
    return some (stripPassword updatedUser,
      storeSet s (.user tenantId userId) (.vUser updatedUser))

/-- TenantService.blacklistToken (`setEx token:blacklist:tok "true"`; the
expiry is not modelled). -/
def blacklistToken (s : Store) (token : String) : Store :=
  storeSet s (.blacklist token) (.vStr "true")

/-- TenantService.isTokenBlacklisted. -/
def isTokenBlacklisted (s : Store) (token : String) : Except String Bool :=
  storeExists s (.blacklist token)

/-- TenantService.createSession: builds the session record and stores it with
a fixed expiry (expiry not modelled). -/
def createSession (s : Store) (tenantId userId : String)
    (loginTime : String) (userAgent : Option String)
    (sessionId now : String) : Session × Store :=
  let session : Session :=
    { sessionId := sessionId, tenantId := tenantId, userId := userId,
      loginTime := loginTime, userAgent := userAgent, createdAt := now }
  (session, storeSet s (.session sessionId) (.vSession session))

end TenantService

/-! ### Route handlers (src/routes/auth.ts, src/routes/llm.ts)

Boom errors become `ApiError`; a handler returns `Except ApiError result`
together with the store it leaves behind.  A `.error` raised by a store
operation is a thrown non-Boom exception, which every handler `catch` block
converts to `Boom.badImplementation`. -/

/-- Boom error outcomes produced by the embedded handlers, tagged with the
message the source passes. -/
inductive ApiError where
  | badRequest (msg : String)
  | unauthorized (msg : String)
  | forbidden (msg : String)
  | notFound (msg : String)
  | conflict (msg : String)
  | badImplementation (msg : String)
  deriving DecidableEq, Repr

/-- Data interface RegisterPayload from src/types.ts. -/
structure RegisterPayload where
  tenantName : String
  domain : String
  username : String
  email : String
  password : String
  deriving DecidableEq, Repr

/-- Data interface LoginPayload from src/types.ts. -/
structure LoginPayload where
  email : String
  password : String
  tenantId : Option String
  domain : Option String
  deriving DecidableEq, Repr

/-- Body of the 201 response of POST /api/auth/register.  The token is
represented by its claims. -/
structure RegisterSuccess where
  tenant : Tenant
  user : UserWithoutPassword
  token : JWTPayload
  deriving DecidableEq, Repr

/-- Handler of POST /api/auth/register: pre-checks the domain via
getTenantByDomain, then creates the tenant and its admin user and issues a
token.  The fresh ids, the bcrypt hash of the payload password and the
current time are passed in. -/
def registerHandler (s : Store) (p : RegisterPayload)
    (newTenantId newUserId hashedPassword now : String) :
    Except ApiError RegisterSuccess × Store :=
  match TenantService.getTenantByDomain s p.domain with
  | .error _ =>
      (.error (.badImplementation "Failed to register tenant"), s)
  | .ok (some _) =>
      (.error (.conflict "Tenant with this domain already exists"), s)
  | .ok none =>
    match TenantService.createTenant s
        { name := p.tenantName, domain := p.domain, settings := none }
        newTenantId now with
    | .error _ =>
        (.error (.badImplementation "Failed to register tenant"), s)
    | .ok (tenant, s1) =>
      match TenantService.createUser s1 tenant.tenantId
          { username := p.username, email := p.email,
            password := p.password, role := some "admin" }
          newUserId hashedPassword now with
      | .error _ =>
          (.error (.badImplementation "Failed to register tenant"), s1)
      | .ok (user, s2) =>
          (.ok { tenant := tenant, user := user,
                 token := generateToken user tenant.tenantId }, s2)

/-- Body of the response of POST /api/auth/login. -/
structure LoginSuccess where
  token : JWTPayload
  user : UserWithoutPassword
  tenant : Tenant
  sessionId : String
  deriving DecidableEq, Repr

/-- Handler of POST /api/auth/login: resolves the tenant (by id or domain),
rejects a non-active tenant, loads the user by email, verifies the password
(`bcrypt.compare` is the parameter `verify`), rejects a non-active user,
issues a token and records a session. -/
def loginHandler (s : Store) (p : LoginPayload)
    (verify : String → String → Bool)
    (sessionId now : String) (userAgent : Option String) :
    Except ApiError LoginSuccess × Store :=
  let tenantLookup : Except String (Option Tenant) :=
    match p.tenantId with
    | some tid => TenantService.getTenant s tid
    | none =>
      match p.domain with
      | some d => TenantService.getTenantByDomain s d
      | none => .ok none
  match tenantLookup with
  | .error _ => (.error (.badImplementation "Failed to login"), s)
  | .ok none => (.error (.notFound "Tenant not found"), s)
  | .ok (some tenant) =>
    if tenant.status ≠ "active" then
      (.error (.forbidden "Tenant is not active"), s)
    else
      match TenantService.getUserByEmail s tenant.tenantId p.email with
      | .error _ => (.error (.badImplementation "Failed to login"), s)
      | .ok none => (.error (.unauthorized "Invalid credentials"), s)
      | .ok (some user) =>
        if ¬ verify p.password user.password then
          (.error (.unauthorized "Invalid credentials"), s)
        else if user.status ≠ "active" then
          (.error (.forbidden "User account is not active"), s)
        else
          let userWithoutPassword := stripPassword user
          let token := generateToken userWithoutPassword tenant.tenantId
          let (session, s1) := TenantService.createSession s tenant.tenantId
            user.userId now userAgent sessionId now
          (.ok { token := token, user := userWithoutPassword,
                 tenant := tenant, sessionId := session.sessionId }, s1)

/-- Handler of POST /api/users (admin only): Hapi first enforces the route
scope `['admin']` against the Principal, then the handler pre-checks the
tenant-scoped email index and creates the user. -/
def createUserEndpoint (s : Store) (credentials : AuthCredentials)
    (userData : CreateUserData) (newUserId hashedPassword now : String) :
    Except ApiError UserWithoutPassword × Store :=
  if "admin" ∉ credentials.scope then
    (.error (.forbidden "Insufficient scope"), s)
  else
    match TenantService.getUserByEmail s credentials.tenantId userData.email with
    | .error _ => (.error (.badImplementation "Failed to create user"), s)
    | .ok (some _) =>
        (.error (.conflict "User with this email already exists in tenant"), s)
    | .ok none =>
      match TenantService.createUser s credentials.tenantId userData
          newUserId hashedPassword now with
      | .error _ => (.error (.badImplementation "Failed to create user"), s)
      | .ok (user, s1) => (.ok user, s1)

/-! ### LLM Proxy (src/services/ollamaService.ts, src/routes/llm.ts)

The Ollama HTTP transport is a parameter function; a `.error` result models
an axios transport/upstream failure (including the 120 s timeout).  The chat
endpoints also report the list of upstream requests actually sent, so that
ordering properties ("rejected before any call") are statable. -/

/-- Chat message (`OllamaMessage`). -/
structure OllamaMessage where
  role : String
  content : String
  deriving DecidableEq, Repr

/-- Chat request (`OllamaChatRequest`); the optional sampling `options`
object is not modelled (no claim concerns it). -/
structure OllamaChatRequest where
  model : String
  messages : List OllamaMessage
  stream : Bool
  deriving DecidableEq, Repr

/-- Chat response (`OllamaChatResponse`); optional timing counters are
modelled as one opaque field. -/
structure OllamaChatResponse where
  model : String
  created_at : String
  message : OllamaMessage
  done : Bool
  timings : List (String × Nat)
  deriving DecidableEq, Repr

namespace OllamaService

/-- OllamaService.chat: posts the request with `stream` forced to `false`;
an axios failure is wrapped into `Error("Ollama request failed: ...")`.
Returns the result together with the upstream requests sent. -/
def chat (transport : OllamaChatRequest → Except String OllamaChatResponse)
    (request : OllamaChatRequest) :
    Except String OllamaChatResponse × List OllamaChatRequest :=
  let sent := { request with stream := false }
  match transport sent with
  | .ok r => (.ok r, [sent])
  | .error e => (.error ("Ollama request failed: " ++ e), [sent])

/-- OllamaService.listModels: an axios failure is wrapped into
`Error("Failed to fetch models: ...")`. -/
def listModels (transport : Except String (List (String × Nat × String))) :
    Except String (List (String × Nat × String)) :=
  match transport with
  | .ok r => .ok r
  | .error e => .error ("Failed to fetch models: " ++ e)

end OllamaService

/-- Character class accepted by the hex positions of a Joi uuid. -/
def isHexDigit (c : Char) : Bool :=
  c.isDigit || ('a' ≤ c && c ≤ 'f') || ('A' ≤ c && c ≤ 'F')

/-- Shape check of `Joi.string().uuid()` on the `x-tenant-id` header value
(canonical 8-4-4-4-12 form; version and variant digits are not constrained). -/
def isUuid (s : String) : Bool :=
  s.length == 36 &&
    s.toList.enum.all fun p =>
      if p.1 == 8 || p.1 == 13 || p.1 == 18 || p.1 == 23 then p.2 == '-'
      else isHexDigit p.2

/-- Message role check of the chat payload schema
(`Joi.string().valid('system', 'user', 'assistant')`). -/
def validRole (r : String) : Bool :=
  r == "system" || r == "user" || r == "assistant"

/-- Payload check of the chat request schema: required nonempty model string,
at least one message, each with a valid role and required nonempty content. -/
def chatPayloadValid (req : OllamaChatRequest) : Bool :=
  req.model != "" && !req.messages.isEmpty &&
    req.messages.all fun m => validRole m.role && m.content != ""

/-- Body of the 200 response of POST /api/llm/chat: the upstream response
spread into a new object with `tenant_id` and `user_id` keys added. -/
structure ChatSuccess where
  response : OllamaChatResponse
  tenant_id : String
  user_id : String
  deriving DecidableEq, Repr

/-- POST /api/llm/chat as reached by an authenticated request: Joi validates
the headers (`x-tenant-id` required and uuid-shaped; a failure is a 400
validation error thrown by the server-wide failAction) and the payload, then
the handler enforces the tenant match, downgrades streaming, calls
OllamaService.chat and annotates the response.  A non-Boom exception from
the service is caught and becomes `Boom.badImplementation`.  The second
component lists the upstream requests sent. -/
def chatEndpoint (credentials : AuthCredentials) (xTenantId : Option String)
    (req : OllamaChatRequest)
    (transport : OllamaChatRequest → Except String OllamaChatResponse) :
    Except ApiError ChatSuccess × List OllamaChatRequest :=
  match xTenantId with
  | none => (.error (.badRequest "Invalid request headers input"), [])
  | some headerTenantId =>
    if ¬ isUuid headerTenantId then
      (.error (.badRequest "Invalid request headers input"), [])
    else if ¬ chatPayloadValid req then
      (.error (.badRequest "Invalid request payload input"), [])
    else if headerTenantId ≠ credentials.tenantId then
      (.error (.forbidden "Tenant ID does not match authenticated user"), [])
    else
      let chatRequest := if req.stream then { req with stream := false } else req
      match OllamaService.chat transport chatRequest with
      | (.ok response, calls) =>
          (.ok { response := response, tenant_id := credentials.tenantId,
                 user_id := credentials.user.userId }, calls)
      | (.error _, calls) =>
          (.error (.badImplementation "Failed to process chat request"), calls)

/-- Body of the 200 response of GET /api/llm/models. -/
structure ModelsSuccess where
  models : List (String × Nat × String)
  tenant_id : String
  deriving DecidableEq, Repr

/-- GET /api/llm/models as reached by an authenticated request: same header
validation and tenant-match enforcement as the chat endpoint, then the model
list is fetched and annotated with the tenant id.  The second component
records whether the upstream was called. -/
def modelsEndpoint (credentials : AuthCredentials) (xTenantId : Option String)
    (transport : Except String (List (String × Nat × String))) :
    Except ApiError ModelsSuccess × Bool :=
  match xTenantId with
  | none => (.error (.badRequest "Invalid request headers input"), false)
  | some headerTenantId =>
    if ¬ isUuid headerTenantId then
      (.error (.badRequest "Invalid request headers input"), false)
    else if headerTenantId ≠ credentials.tenantId then
      (.error (.forbidden "Tenant ID does not match authenticated user"), false)
    else
      match OllamaService.listModels transport with
      | .ok models =>
          (.ok { models := models, tenant_id := credentials.tenantId }, true)
      | .error _ =>
          (.error (.badImplementation "Failed to fetch models"), true)

/-! ### Response-payload view of user records

JavaScript objects are serialized key-by-key; to state that a response
payload carries no `password` key, user records are also given an
association-list view matching the field order of the TypeScript object
literals, and rest-destructuring is the corresponding key filter. -/

/-- Association-list view of the runtime object for a full user record, in
the field order of the literal built by `createUser` (JSON.stringify omits
an undefined `updatedAt`). -/
def objOfUser (u : User) : List (String × String) :=
  [("userId", u.userId), ("tenantId", u.tenantId),
   ("username", u.username), ("email", u.email),
   ("password", u.password), ("role", u.role), ("status", u.status),
   ("createdAt", u.createdAt)] ++
    (match u.updatedAt with | none => [] | some t => [("updatedAt", t)])

/-- Association-list view of the runtime object for a password-stripped user
record. -/
def objOfUserWithoutPassword (u : UserWithoutPassword) : List (String × String) :=
  [("userId", u.userId), ("tenantId", u.tenantId),
   ("username", u.username), ("email", u.email),
   ("role", u.role), ("status", u.status),
   ("createdAt", u.createdAt)] ++
    (match u.updatedAt with | none => [] | some t => [("updatedAt", t)])

/-- Runtime effect of rest-destructuring one key out of an object
(`const { password, ...rest } = user` is `omitField "password"`). -/
def omitField (k : String) (obj : List (String × String)) :
    List (String × String) :=
  obj.filter fun p => p.1 ≠ k

/-- Structure-level password stripping agrees with the runtime
rest-destructuring of the serialized object. -/
theorem objOf_stripPassword (u : User) :
    objOfUserWithoutPassword (stripPassword u) =
      omitField "password" (objOfUser u) := by
  cases h : u.updatedAt <;>
    simp [objOfUserWithoutPassword, stripPassword, omitField, objOfUser, h]

/-- Serialization of a password-stripped user never carries a `password`
key. -/
theorem objOfUserWithoutPassword_no_password (u : UserWithoutPassword) :
    "password" ∉ (objOfUserWithoutPassword u).map Prod.fst := by
  cases h : u.updatedAt <;> simp [objOfUserWithoutPassword, h]

/-! ### Lifecycle-status perturbations of a store (for the independence
property of the Auth Gate). -/

/-- Store identical to `s` except that the tenant record at `tenantId` (when
present and well-formed) carries lifecycle status `st`. -/
def withTenantStatus (s : Store) (tenantId st : String) : Store :=
  match s.kv (.tenant tenantId) with
  | .ok (some (.vTenant t)) =>
      storeSet s (.tenant tenantId) (.vTenant { t with status := st })
  | _ => s

/-- Store identical to `s` except that the user record at
`(tenantId, userId)` (when present and well-formed) carries lifecycle status
`st`. -/
def withUserStatus (s : Store) (tenantId userId st : String) : Store :=
  match s.kv (.user tenantId userId) with
  | .ok (some (.vUser u)) =>
      storeSet s (.user tenantId userId) (.vUser { u with status := st })
  | _ => s

/-! ### Reduction lemmas for the Except monad and concrete sample data used
by witnesses. -/

theorem exceptBind_ok {α β ε : Type} (a : α) (f : α → Except ε β) :
    (Except.ok a >>= f) = f a := rfl

theorem exceptBind_error {α β ε : Type} (e : ε) (f : α → Except ε β) :
    ((Except.error e : Except ε α) >>= f) = Except.error e := rfl

theorem exceptMap_ok {α β ε : Type} (f : α → β) (a : α) :
    (f <$> (Except.ok a : Except ε α)) = Except.ok (f a) := rfl

theorem exceptMap_error {α β ε : Type} (f : α → β) (e : ε) :
    (f <$> (Except.error e : Except ε α)) = (Except.error e : Except ε β) := rfl

theorem exceptPure {α ε : Type} (a : α) :
    (pure a : Except ε α) = Except.ok a := rfl

/-- Sample tenant record. -/
def sampleTenant : Tenant :=
  { tenantId := "t1", name := "Acme", domain := "acme.com",
    status := "active", createdAt := "2024-01-01", updatedAt := none,
    settings := [] }

/-- Sample admin user of the sample tenant. -/
def sampleAdmin : User :=
  { userId := "u1", tenantId := "t1", username := "alice",
    email := "alice@acme.com", password := "hash1", role := "admin",
    status := "active", createdAt := "2024-01-01", updatedAt := none }

/-- Sample store holding the sample tenant and its admin user. -/
def sampleStore : Store :=
  ⟨fun k =>
    if k = .tenant "t1" then .ok (some (.vTenant sampleTenant))
    else if k = .user "t1" "u1" then .ok (some (.vUser sampleAdmin))
    else .ok none⟩

/-- Sample tenant whose lifecycle status is not active. -/
def inactiveTenant : Tenant :=
  { tenantId := "t3", name := "Gamma", domain := "gamma.com",
    status := "inactive", createdAt := "2024-01-01", updatedAt := none,
    settings := [] }

/-- Sample active tenant owning an inactive user. -/
def activeTenant2 : Tenant :=
  { tenantId := "t2", name := "Beta", domain := "beta.com",
    status := "active", createdAt := "2024-01-01", updatedAt := none,
    settings := [] }

/-- Sample inactive user of the active sample tenant. -/
def inactiveBob : User :=
  { userId := "u2", tenantId := "t2", username := "bob",
    email := "bob@beta.com", password := "h2", role := "user",
    status := "inactive", createdAt := "2024-01-01", updatedAt := none }

/-- Sample store mixing active and inactive tenants and users. -/
def statusStore : Store :=
  ⟨fun k =>
    if k = .tenant "t3" then .ok (some (.vTenant inactiveTenant))
    else if k = .tenant "t2" then .ok (some (.vTenant activeTenant2))
    else if k = .emailIdx "t2" "bob@beta.com" then .ok (some (.vStr "u2"))
    else if k = .user "t2" "u2" then .ok (some (.vUser inactiveBob))
    else .ok none⟩

/-- Sample token claims referencing the active sample tenant and its user. -/
def payload9 : JWTPayload :=
  { aud := "urn:audience:api", iss := "urn:issuer:api", userId := "u2",
    tenantId := "t2", role := "user" }

/-- Sample login payload addressing the inactive sample tenant. -/
def loginPayload3 : LoginPayload :=
  { email := "bob@beta.com", password := "pw", tenantId := some "t3",
    domain := none }

/-- Sample login payload addressing the inactive user of the active sample
tenant. -/
def loginPayload4 : LoginPayload :=
  { email := "bob@beta.com", password := "pw", tenantId := some "t2",
    domain := none }

/-- Sample store holding the sample tenant and its domain index entry. -/
def store10 : Store :=
  ⟨fun k =>
    if k = .tenant "t1" then .ok (some (.vTenant sampleTenant))
    else if k = .domainIdx "acme.com" then .ok (some (.vStr "t1"))
    else .ok none⟩

/-- Sample tenant update that changes only the domain. -/
def update10 : UpdateTenantData :=
  { name := none, domain := some "new.com", status := none,
    settings := none }

/-- Sample tenant-creation data re-using the already indexed domain. -/
def regTenantData5 : CreateTenantData :=
  { name := "Other", domain := "acme.com", settings := none }

/-- Sample registration payload re-using the already indexed domain. -/
def regPayload5 : RegisterPayload :=
  { tenantName := "Other", domain := "acme.com", username := "carol",
    email := "carol@acme.com", password := "Secret123" }

/-- Sample user whose email is already registered in tenant t1. -/
def bob5 : User :=
  { userId := "u5", tenantId := "t1", username := "bob",
    email := "bob@dup.com", password := "h5", role := "user",
    status := "active", createdAt := "2024-01-01", updatedAt := none }

/-- Sample store where bob@dup.com is registered in tenant t1 only. -/
def store6 : Store :=
  ⟨fun k =>
    if k = .emailIdx "t1" "bob@dup.com" then .ok (some (.vStr "u5"))
    else if k = .user "t1" "u5" then .ok (some (.vUser bob5))
    else .ok none⟩

/-- Sample admin Principal for tenant t1. -/
def credsA6 : AuthCredentials :=
  { user := stripPassword sampleAdmin, tenantId := "t1",
    scope := ["admin", "user"] }

/-- Sample admin Principal for tenant t2. -/
def credsB6 : AuthCredentials :=
  { user := stripPassword sampleAdmin, tenantId := "t2",
    scope := ["admin", "user"] }

/-- Sample user-creation data carrying the duplicated email. -/
def userData6 : CreateUserData :=
  { username := "bob2", email := "bob@dup.com", password := "Password1",
    role := none }

/-- Sample uuid-shaped tenant id. -/
def uuidA : String := "11111111-1111-4111-8111-111111111111"

/-- Second sample uuid-shaped tenant id, different from the first. -/
def uuidB : String := "22222222-2222-4222-8222-222222222222"

/-- Sample Principal whose tenant id is uuid-shaped. -/
def creds8 : AuthCredentials :=
  { user := stripPassword sampleAdmin, tenantId := uuidA,
    scope := ["user"] }

/-- Sample chat request with one valid message. -/
def chatReq8 : OllamaChatRequest :=
  { model := "llama2",
    messages := [{ role := "user", content := "Hello" }],
    stream := false }

/-- Sample upstream chat response. -/
def chatResp8 : OllamaChatResponse :=
  { model := "llama2", created_at := "2024-01-15",
    message := { role := "assistant", content := "Hi" }, done := true,
    timings := [] }

/-- Sample transport that answers every chat request. -/
def okTransport : OllamaChatRequest → Except String OllamaChatResponse :=
  fun _ => .ok chatResp8

/-- Sample transport that fails every chat request (Ollama unreachable). -/
def failTransport : OllamaChatRequest → Except String OllamaChatResponse :=
  fun _ => .error "Ollama connection failed"

/-! ## Claims -/

/-- C1: for every valid (tenantId, userId, role) triple whose tenant and
user records exist in the store, a token issued by generateToken and then
validated by the Auth Gate yields a Principal whose capability set is
exactly ["admin", "user"] when the role is "admin" and exactly ["user"]
otherwise, whose tenantId equals the token's embedded tenantId, and whose
user is the stored user record (password stripped). -/
theorem issue_then_validate_principal (s : Store) (tid raw : String)
    (u : User) (tv : Val)
    (hbl : s.kv (.blacklist raw) = .ok none)
    (ht : s.kv (.tenant tid) = .ok (some tv))
    (hu : s.kv (.user tid u.userId) = .ok (some (.vUser u))) :
    validate s raw (generateToken (stripPassword u) tid) =
      .valid { user := stripPassword u, tenantId := tid,
               scope := if u.role = "admin" then ["admin", "user"]
                        else ["user"] } ∧
    (generateToken (stripPassword u) tid).tenantId = tid := by
  refine ⟨?_, rfl⟩
  unfold validate validateSteps
  simp [storeExists, storeGet, generateToken, stripPassword, hbl, ht, hu,
    parseUser, exceptBind_ok, exceptBind_error, exceptMap_ok, exceptPure]

/-- Witness for C1 at the sample store, sample admin user and a fresh raw
token. -/
theorem issue_then_validate_principal_witness :
    validate sampleStore "rawtok"
        (generateToken (stripPassword sampleAdmin) "t1") =
      .valid { user := stripPassword sampleAdmin, tenantId := "t1",
               scope := if sampleAdmin.role = "admin" then ["admin", "user"]
                        else ["user"] } ∧
    (generateToken (stripPassword sampleAdmin) "t1").tenantId = "t1" :=
  issue_then_validate_principal sampleStore "t1" "rawtok" sampleAdmin
    (.vTenant sampleTenant) rfl rfl rfl

/-- C2: the Auth Gate's validate returns a valid Principal exactly when the
raw token is not blacklisted, the embedded tenant id has a record, and the
embedded user id has a well-formed record under that tenant; every other
case — including a store read that throws or a stored user value that fails
to parse — yields invalid rather than a propagated error. -/
theorem validate_fail_closed_characterization (s : Store) (raw : String)
    (p : JWTPayload) :
    (validate s raw p).isValid = true ↔
      (s.kv (.blacklist raw) = .ok none ∧
       (∃ v, s.kv (.tenant p.tenantId) = .ok (some v)) ∧
       (∃ u, s.kv (.user p.tenantId p.userId) = .ok (some (.vUser u)))) := by
  cases hbl : s.kv (.blacklist raw) with
  | error e =>
      simp [validate, validateSteps, storeExists, storeGet, hbl,
        exceptBind_ok, exceptBind_error, exceptMap_ok, exceptMap_error,
        exceptPure, ValidateOutcome.isValid]
  | ok obl =>
    cases obl with
    | some v =>
        simp [validate, validateSteps, storeExists, storeGet, hbl,
          exceptBind_ok, exceptBind_error, exceptMap_ok, exceptMap_error,
          exceptPure, ValidateOutcome.isValid]
    | none =>
      cases ht : s.kv (.tenant p.tenantId) with
      | error e =>
          simp [validate, validateSteps, storeExists, storeGet, hbl, ht,
            exceptBind_ok, exceptBind_error, exceptMap_ok, exceptMap_error,
            exceptPure, ValidateOutcome.isValid]
      | ok ot =>
        cases ot with
        | none =>
            simp [validate, validateSteps, storeExists, storeGet, hbl, ht,
              exceptBind_ok, exceptBind_error, exceptMap_ok, exceptMap_error,
              exceptPure, ValidateOutcome.isValid]
        | some tv =>
          cases hu : s.kv (.user p.tenantId p.userId) with
          | error e =>
              simp [validate, validateSteps, storeExists, storeGet, hbl, ht,
                hu, exceptBind_ok, exceptBind_error, exceptMap_ok,
                exceptMap_error, exceptPure, ValidateOutcome.isValid]
          | ok ou =>
            cases ou with
            | none =>
                simp [validate, validateSteps, storeExists, storeGet, hbl,
                  ht, hu, exceptBind_ok, exceptBind_error, exceptMap_ok,
                  exceptMap_error, exceptPure, ValidateOutcome.isValid]
            | some uv =>
              cases uv <;>
                simp [validate, validateSteps, storeExists, storeGet, hbl,
                  ht, hu, parseUser, exceptBind_ok, exceptBind_error,
                  exceptMap_ok, exceptMap_error, exceptPure,
                  ValidateOutcome.isValid]

theorem validate_congr (s s' : Store) (raw : String) (p : JWTPayload)
    (h1 : storeExists s' (.blacklist raw) = storeExists s (.blacklist raw))
    (h2 : storeExists s' (.tenant p.tenantId)
        = storeExists s (.tenant p.tenantId))
    (h3 : storeGet s' (.user p.tenantId p.userId)
        = storeGet s (.user p.tenantId p.userId)) :
    validate s' raw p = validate s raw p := by
  unfold validate validateSteps
  simp only [h1, h2, h3]

theorem validate_isValid_both_users (s s' : Store) (raw : String)
    (p : JWTPayload) (u u' : User)
    (h1 : storeExists s' (.blacklist raw) = storeExists s (.blacklist raw))
    (h2 : storeExists s' (.tenant p.tenantId)
        = storeExists s (.tenant p.tenantId))
    (h3 : storeGet s' (.user p.tenantId p.userId) = .ok (some (.vUser u')))
    (h4 : storeGet s (.user p.tenantId p.userId) = .ok (some (.vUser u))) :
    (validate s' raw p).isValid = (validate s raw p).isValid := by
  unfold validate validateSteps
  simp only [h1, h2, h3, h4]
  cases hbl : storeExists s (.blacklist raw) with
  | error e =>
      simp [exceptBind_error, ValidateOutcome.isValid]
  | ok b =>
    cases b with
    | true =>
        simp [exceptBind_ok, exceptPure, ValidateOutcome.isValid]
    | false =>
      cases htn : storeExists s (.tenant p.tenantId) with
      | error e =>
          simp [exceptBind_ok, exceptBind_error, exceptPure,
            ValidateOutcome.isValid]
      | ok tb =>
        cases tb <;>
          simp [exceptBind_ok, exceptBind_error, exceptMap_ok, exceptPure,
            parseUser, ValidateOutcome.isValid]

/-- C9: the Auth Gate's decision is independent of lifecycle status fields —
perturbing a tenant record's status leaves the whole validate outcome
unchanged, perturbing a user record's status leaves the admit/reject
decision unchanged — even though the login handler rejects a non-active
tenant and a non-active user. -/
theorem authGate_status_independent (s : Store)
    (tid st uTid uUid uSt raw : String) (p : JWTPayload) :
    validate (withTenantStatus s tid st) raw p = validate s raw p ∧
    (validate (withUserStatus s uTid uUid uSt) raw p).isValid
      = (validate s raw p).isValid ∧
    (∀ (lp : LoginPayload) (verify : String → String → Bool)
        (sid now : String) (ua : Option String) (tid3 : String) (t : Tenant),
      lp.tenantId = some tid3 →
      s.kv (.tenant tid3) = .ok (some (.vTenant t)) →
      t.status ≠ "active" →
      loginHandler s lp verify sid now ua =
        (.error (.forbidden "Tenant is not active"), s)) ∧
    (∀ (lp : LoginPayload) (verify : String → String → Bool)
        (sid now : String) (ua : Option String) (tid4 uid : String)
        (t : Tenant) (u : User),
      lp.tenantId = some tid4 →
      s.kv (.tenant tid4) = .ok (some (.vTenant t)) →
      t.status = "active" →
      s.kv (.emailIdx t.tenantId lp.email) = .ok (some (.vStr uid)) →
      s.kv (.user t.tenantId uid) = .ok (some (.vUser u)) →
      verify lp.password u.password = true →
      u.status ≠ "active" →
      loginHandler s lp verify sid now ua =
        (.error (.forbidden "User account is not active"), s)) := by
  refine ⟨?_, ?_, ?_, ?_⟩
  · unfold withTenantStatus
    cases h : s.kv (.tenant tid) with
    | error e => rfl
    | ok o =>
      cases o with
      | none => rfl
      | some v =>
        cases v with
        | vStr a => rfl
        | vUser a => rfl
        | vSession a => rfl
        | vSet a => rfl
        | vTenant t =>
          apply validate_congr
          · unfold storeExists
            rw [storeSet_kv_ne _ _ _ _ (by simp)]
          · by_cases hp : p.tenantId = tid
            · subst hp
              unfold storeExists
              rw [storeSet_kv_eq, h]
              rfl
            · unfold storeExists
              rw [storeSet_kv_ne _ _ _ _ (by simp [hp])]
          · unfold storeGet
            rw [storeSet_kv_ne _ _ _ _ (by simp)]
  · unfold withUserStatus
    cases h : s.kv (.user uTid uUid) with
    | error e => rfl
    | ok o =>
      cases o with
      | none => rfl
      | some v =>
        cases v with
        | vStr a => rfl
        | vTenant a => rfl
        | vSession a => rfl
        | vSet a => rfl
        | vUser u =>
          by_cases hp : p.tenantId = uTid ∧ p.userId = uUid
          · obtain ⟨hp1, hp2⟩ := hp
            refine validate_isValid_both_users s
              (storeSet s (.user uTid uUid) (.vUser { u with status := uSt }))
              raw p u { u with status := uSt } ?_ ?_ ?_ ?_
            · unfold storeExists
              rw [storeSet_kv_ne _ _ _ _ (by simp)]
            · unfold storeExists
              rw [storeSet_kv_ne _ _ _ _ (by simp)]
            · unfold storeGet
              rw [hp1, hp2, storeSet_kv_eq]
            · unfold storeGet
              rw [hp1, hp2, h]
          · have hcongr : validate
                (storeSet s (.user uTid uUid) (.vUser { u with status := uSt }))
                raw p = validate s raw p := by
              apply validate_congr
              · unfold storeExists
                rw [storeSet_kv_ne _ _ _ _ (by simp)]
              · unfold storeExists
                rw [storeSet_kv_ne _ _ _ _ (by simp)]
              · unfold storeGet
                rw [storeSet_kv_ne]
                simp only [ne_eq, Key.user.injEq, not_and]
                intro h1 h2
                exact hp ⟨h1, h2⟩
            rw [hcongr]
  · intro lp verify sid now ua tid3 t hlp ht hst
    unfold loginHandler TenantService.getTenant
    simp [hlp, storeGet, ht, parseTenant, hst, exceptBind_ok,
      exceptBind_error, exceptPure]
  · intro lp verify sid now ua tid4 uid t u hlp ht hact he hu hv hust
    unfold loginHandler TenantService.getTenant TenantService.getUserByEmail
    simp [hlp, storeGet, ht, parseTenant, hact, he, asId, hu, parseUser, hv,
      hust, exceptBind_ok, exceptBind_error, exceptPure]

/-- Concrete check of C9: perturbing statuses in the sample store leaves
validation unchanged, while login rejects the inactive tenant and the
inactive user. -/
theorem authGate_status_independent_witness :
    validate (withTenantStatus statusStore "t2" "suspended") "tok9" payload9
      = validate statusStore "tok9" payload9 ∧
    (validate (withUserStatus statusStore "t2" "u2" "inactive") "tok9"
        payload9).isValid = (validate statusStore "tok9" payload9).isValid ∧
    loginHandler statusStore loginPayload3 (fun _ _ => true) "sid" "now" none
      = (.error (.forbidden "Tenant is not active"), statusStore) ∧
    loginHandler statusStore loginPayload4 (fun _ _ => true) "sid" "now" none
      = (.error (.forbidden "User account is not active"), statusStore) := by
  have h := authGate_status_independent statusStore "t2" "suspended" "t2"
    "u2" "inactive" "tok9" payload9
  exact ⟨h.1, h.2.1,
    h.2.2.1 loginPayload3 (fun _ _ => true) "sid" "now" none "t3"
      inactiveTenant rfl rfl (by decide),
    h.2.2.2 loginPayload4 (fun _ _ => true) "sid" "now" none "t2" "u2"
      activeTenant2 inactiveBob rfl rfl rfl rfl rfl rfl (by decide)⟩

theorem storeSAdd_kv_ne (s s' : Store) (k k' : Key) (x : String)
    (h : storeSAdd s k x = .ok s') (hk : k' ≠ k) : s'.kv k' = s.kv k' := by
  cases hv : s.kv k with
  | error e =>
      unfold storeSAdd at h
      rw [hv] at h
      simp at h
  | ok o =>
    cases o with
    | none =>
        unfold storeSAdd at h
        rw [hv] at h
        simp only [Except.ok.injEq] at h
        subst h
        exact storeSet_kv_ne _ _ _ _ hk
    | some v =>
      cases v with
      | vStr a =>
          unfold storeSAdd at h; rw [hv] at h; simp at h
      | vTenant a =>
          unfold storeSAdd at h; rw [hv] at h; simp at h
      | vUser a =>
          unfold storeSAdd at h; rw [hv] at h; simp at h
      | vSession a =>
          unfold storeSAdd at h; rw [hv] at h; simp at h
      | vSet xs =>
          unfold storeSAdd at h
          rw [hv] at h
          simp only [Except.ok.injEq] at h
          subst h
          exact storeSet_kv_ne _ _ _ _ hk

/-- C10: updateTenant never updates the domain index — after a successful
domain change, a lookup of the new domain finds nothing while a lookup of
the previous domain still returns the tenant (now bearing the new domain),
breaking the round-trip that holds immediately after createTenant. -/
theorem updateTenant_skips_domain_index (s : Store)
    (tid d0 d1 now : String) (t : Tenant) (updates : UpdateTenantData)
    (ht : s.kv (.tenant tid) = .ok (some (.vTenant t)))
    (hd0 : t.domain = d0)
    (hidx : s.kv (.domainIdx d0) = .ok (some (.vStr tid)))
    (hupd : updates.domain = some d1)
    (hnew : s.kv (.domainIdx d1) = .ok none) :
    (∃ t' s',
      TenantService.updateTenant s tid updates now = .ok (some (t', s')) ∧
      t'.domain = d1 ∧
      TenantService.getTenantByDomain s' d1 = .ok none ∧
      TenantService.getTenantByDomain s' d0 = .ok (some t')) ∧
    (∀ (s0 : Store) (td : CreateTenantData) (tid0 now0 : String)
        (tres : Tenant) (sres : Store),
      td.domain ≠ "" →
      TenantService.createTenant s0 td tid0 now0 = .ok (tres, sres) →
      TenantService.getTenantByDomain sres td.domain = .ok (some tres)) := by
  constructor
  · refine ⟨mergedTenant t updates tid now,
      storeSet s (.tenant tid) (.vTenant (mergedTenant t updates tid now)),
      ?_, ?_, ?_, ?_⟩
    · unfold TenantService.updateTenant TenantService.getTenant
      simp [storeGet, ht, parseTenant, exceptBind_ok, exceptPure]
    · simp [mergedTenant, hupd]
    · unfold TenantService.getTenantByDomain
      have hse : (storeSet s (.tenant tid)
          (.vTenant (mergedTenant t updates tid now))).kv (.domainIdx d1)
          = s.kv (.domainIdx d1) :=
        storeSet_kv_ne _ _ _ _ (by simp)
      simp [storeGet, hse, hnew, exceptBind_ok, exceptPure]
    · unfold TenantService.getTenantByDomain TenantService.getTenant
      have hse : (storeSet s (.tenant tid)
          (.vTenant (mergedTenant t updates tid now))).kv (.domainIdx d0)
          = s.kv (.domainIdx d0) :=
        storeSet_kv_ne _ _ _ _ (by simp)
      simp [storeGet, hse, hidx, asId, storeSet_kv_eq, parseTenant,
        exceptBind_ok, exceptPure]
  · intro s0 td tid0 now0 tres sres hdom heq
    unfold TenantService.createTenant at heq
    simp only [] at heq
    cases hAdd : storeSAdd (storeSet s0 (.tenant tid0)
        (.vTenant (newTenant td tid0 now0))) .tenantsAll tid0 with
    | error e =>
        rw [hAdd] at heq
        simp [exceptBind_error] at heq
    | ok s2 =>
        rw [hAdd] at heq
        simp only [exceptBind_ok, exceptPure] at heq
        rw [if_pos hdom] at heq
        simp only [Except.ok.injEq, Prod.mk.injEq] at heq
        obtain ⟨htres, hsres⟩ := heq
        subst htres
        subst hsres
        unfold TenantService.getTenantByDomain TenantService.getTenant
        have h1 : (storeSet s2 (.domainIdx td.domain) (.vStr tid0)).kv
            (.tenant tid0) = s2.kv (.tenant tid0) :=
          storeSet_kv_ne _ _ _ _ (by simp)
        have h2 : s2.kv (.tenant tid0) =
            (storeSet s0 (.tenant tid0)
              (.vTenant (newTenant td tid0 now0))).kv (.tenant tid0) :=
          storeSAdd_kv_ne _ _ _ _ _ hAdd (by simp)
        simp [storeGet, storeSet_kv_eq, h1, h2, asId, parseTenant,
          exceptBind_ok, exceptPure]

/-- Concrete check of C10 at the sample store: changing the domain to
new.com leaves the index pointing acme.com at the tenant and new.com at
nothing, while a fresh createTenant round-trips. -/
theorem updateTenant_skips_domain_index_witness :
    (∃ t' s',
      TenantService.updateTenant store10 "t1" update10 "2024-02-02"
        = .ok (some (t', s')) ∧
      t'.domain = "new.com" ∧
      TenantService.getTenantByDomain s' "new.com" = .ok none ∧
      TenantService.getTenantByDomain s' "acme.com" = .ok (some t')) ∧
    (∀ (s0 : Store) (td : CreateTenantData) (tid0 now0 : String)
        (tres : Tenant) (sres : Store),
      td.domain ≠ "" →
      TenantService.createTenant s0 td tid0 now0 = .ok (tres, sres) →
      TenantService.getTenantByDomain sres td.domain = .ok (some tres)) :=
  updateTenant_skips_domain_index store10 "t1" "acme.com" "new.com"
    "2024-02-02" sampleTenant update10 rfl rfl rfl rfl rfl

/-- Refutation for C5: on a store whose domain index already maps acme.com
to tenant t1, a direct createTenant call for acme.com succeeds and leaves
the index pointing at the new tenant — it neither fails nor preserves the
existing entry. -/
theorem createTenant_overwrites_domain_index :
    ((TenantService.createTenant store10 regTenantData5 "t2"
        "2024-03-03").map
      (fun pr => (pr.1.domain, pr.2.kv (.domainIdx "acme.com"))))
      = .ok ("acme.com", .ok (some (.vStr "t2"))) := rfl

/-- C5 as amended: duplicate-domain protection lives in the registration
endpoint, not in createTenant — when the domain already resolves to an
existing tenant, the register handler fails with a conflict before any
write, leaving the store unchanged. -/
theorem register_conflict_on_existing_domain (s : Store)
    (p : RegisterPayload) (tid0 uid0 hp now prevId : String) (prev : Tenant)
    (hidx : s.kv (.domainIdx p.domain) = .ok (some (.vStr prevId)))
    (hrec : s.kv (.tenant prevId) = .ok (some (.vTenant prev))) :
    registerHandler s p tid0 uid0 hp now =
      (.error (.conflict "Tenant with this domain already exists"), s) := by
  unfold registerHandler TenantService.getTenantByDomain
    TenantService.getTenant
  simp [storeGet, hidx, asId, hrec, parseTenant, exceptBind_ok, exceptPure]

/-- Concrete check of the amended C5 at the sample store. -/
theorem register_conflict_on_existing_domain_witness :
    registerHandler store10 regPayload5 "t2" "u9" "h9" "2024-03-03" =
      (.error (.conflict "Tenant with this domain already exists"),
        store10) :=
  register_conflict_on_existing_domain store10 regPayload5 "t2" "u9" "h9"
    "2024-03-03" "t1" sampleTenant rfl rfl

/-- C6: per-tenant email uniqueness is preserved by the user-creation
endpoint — a second create with an email already registered in the same
tenant yields a conflict and returns the store unchanged, while the same
email under a different tenant whose index is free succeeds. -/
theorem createUser_email_unique_per_tenant (s : Store)
    (credsA credsB : AuthCredentials) (d : CreateUserData)
    (uidN hp now uid : String) (u : User)
    (hA : "admin" ∈ credsA.scope) (hB : "admin" ∈ credsB.scope)
    (hidxA : s.kv (.emailIdx credsA.tenantId d.email) = .ok (some (.vStr uid)))
    (hrecA : s.kv (.user credsA.tenantId uid) = .ok (some (.vUser u)))
    (hidxB : s.kv (.emailIdx credsB.tenantId d.email) = .ok none)
    (husersB : s.kv (.usersSet credsB.tenantId) = .ok none) :
    createUserEndpoint s credsA d uidN hp now =
      (.error (.conflict "User with this email already exists in tenant"),
        s) ∧
    createUserEndpoint s credsB d uidN hp now =
      (.ok (stripPassword (newUser credsB.tenantId d uidN hp now)),
        storeSet
          (storeSet
            (storeSet s (.user credsB.tenantId uidN)
              (.vUser (newUser credsB.tenantId d uidN hp now)))
            (.usersSet credsB.tenantId) (.vSet [uidN]))
          (.emailIdx credsB.tenantId d.email) (.vStr uidN)) ∧
    (stripPassword (newUser credsB.tenantId d uidN hp now)).email
      = d.email := by
  refine ⟨?_, ?_, rfl⟩
  · unfold createUserEndpoint TenantService.getUserByEmail
    simp [hA, storeGet, hidxA, asId, hrecA, parseUser, exceptBind_ok,
      exceptPure]
  · have h1 : (storeSet s (.user credsB.tenantId uidN)
        (.vUser (newUser credsB.tenantId d uidN hp now))).kv
        (.usersSet credsB.tenantId) = .ok none := by
      rw [storeSet_kv_ne _ _ _ _ (by simp), husersB]
    have hAdd : storeSAdd
        (storeSet s (.user credsB.tenantId uidN)
          (.vUser (newUser credsB.tenantId d uidN hp now)))
        (.usersSet credsB.tenantId) uidN =
        .ok (storeSet
          (storeSet s (.user credsB.tenantId uidN)
            (.vUser (newUser credsB.tenantId d uidN hp now)))
          (.usersSet credsB.tenantId) (.vSet [uidN])) := by
      unfold storeSAdd
      rw [h1]
    unfold createUserEndpoint TenantService.getUserByEmail
      TenantService.createUser
    simp [hB, storeGet, hidxB, hAdd, exceptBind_ok, exceptPure]

/-- Concrete check of C6: bob@dup.com conflicts inside tenant t1 and is
accepted in tenant t2. -/
theorem createUser_email_unique_per_tenant_witness :
    createUserEndpoint store6 credsA6 userData6 "u6" "h6" "2024-04-04" =
      (.error (.conflict "User with this email already exists in tenant"),
        store6) ∧
    createUserEndpoint store6 credsB6 userData6 "u6" "h6" "2024-04-04" =
      (.ok (stripPassword (newUser credsB6.tenantId userData6 "u6" "h6"
          "2024-04-04")),
        storeSet
          (storeSet
            (storeSet store6 (.user credsB6.tenantId "u6")
              (.vUser (newUser credsB6.tenantId userData6 "u6" "h6"
                "2024-04-04")))
            (.usersSet credsB6.tenantId) (.vSet ["u6"]))
          (.emailIdx credsB6.tenantId userData6.email) (.vStr "u6")) ∧
    (stripPassword (newUser credsB6.tenantId userData6 "u6" "h6"
      "2024-04-04")).email = userData6.email :=
  createUser_email_unique_per_tenant store6 credsA6 credsB6 userData6 "u6"
    "h6" "2024-04-04" "u5" bob5 (by decide) (by decide) rfl rfl rfl rfl

/-- C7: no result of createUser, getUser, getAllUsers or updateUser carries
a password key in its serialized payload, and structure-level stripping
agrees with the runtime rest-destructuring that removes exactly the
password field. -/
theorem responses_never_carry_password :
    (∀ (s : Store) (tid : String) (d : CreateUserData)
        (uid hp now : String) (res : UserWithoutPassword) (s' : Store),
      TenantService.createUser s tid d uid hp now = .ok (res, s') →
      "password" ∉ (objOfUserWithoutPassword res).map Prod.fst) ∧
    (∀ (s : Store) (tid uid : String) (res : UserWithoutPassword),
      TenantService.getUser s tid uid = .ok (some res) →
      "password" ∉ (objOfUserWithoutPassword res).map Prod.fst) ∧
    (∀ (s : Store) (tid : String) (l : List UserWithoutPassword),
      TenantService.getAllUsers s tid = .ok l →
      ∀ res ∈ l, "password" ∉ (objOfUserWithoutPassword res).map Prod.fst) ∧
    (∀ (s : Store) (tid uid : String) (upd : UpdateUserData) (now : String)
        (res : UserWithoutPassword) (s' : Store),
      TenantService.updateUser s tid uid upd now = .ok (some (res, s')) →
      "password" ∉ (objOfUserWithoutPassword res).map Prod.fst) ∧
    (∀ u : User, objOfUserWithoutPassword (stripPassword u)
      = omitField "password" (objOfUser u)) := by
  refine ⟨?_, ?_, ?_, ?_, objOf_stripPassword⟩
  · intro s tid d uid hp now res s' h
    exact objOfUserWithoutPassword_no_password res
  · intro s tid uid res h
    exact objOfUserWithoutPassword_no_password res
  · intro s tid l h res hres
    exact objOfUserWithoutPassword_no_password res
  · intro s tid uid upd now res s' h
    exact objOfUserWithoutPassword_no_password res

/-- Concrete check of C7 at the sample store: the user loaded by getUser
serializes without a password key, and stripping equals the runtime
destructuring. -/
theorem responses_never_carry_password_witness :
    "password" ∉
      (objOfUserWithoutPassword (stripPassword sampleAdmin)).map Prod.fst ∧
    objOfUserWithoutPassword (stripPassword sampleAdmin)
      = omitField "password" (objOfUser sampleAdmin) := by
  have h := responses_never_carry_password
  exact ⟨h.2.1 sampleStore "t1" "u1" (stripPassword sampleAdmin) rfl,
    h.2.2.2.2 sampleAdmin⟩

/-- C8: with a matching x-tenant-id header and a valid message list, the
chat endpoint returns exactly the upstream response annotated with the
caller's tenant and user ids, having sent one upstream request (with
streaming forced off); with a mismatching header it returns forbidden and
no upstream request is ever sent. -/
theorem chat_annotates_and_isolates (credentials : AuthCredentials)
    (req : OllamaChatRequest)
    (transport : OllamaChatRequest → Except String OllamaChatResponse)
    (resp : OllamaChatResponse)
    (huuid : isUuid credentials.tenantId = true)
    (hpayload : chatPayloadValid req = true)
    (htrans : transport { req with stream := false } = .ok resp) :
    chatEndpoint credentials (some credentials.tenantId) req transport =
      (.ok { response := resp, tenant_id := credentials.tenantId,
             user_id := credentials.user.userId },
       [{ req with stream := false }]) ∧
    (∀ h', isUuid h' = true → h' ≠ credentials.tenantId →
      chatEndpoint credentials (some h') req transport =
        (.error (.forbidden "Tenant ID does not match authenticated user"),
          [])) := by
  constructor
  · obtain ⟨m, ms, st⟩ := req
    unfold chatEndpoint OllamaService.chat
    cases st <;>
      simp_all [huuid, hpayload, htrans]
  · intro h' h1 h2
    unfold chatEndpoint
    simp [h1, h2, hpayload]

/-- Concrete check of C8 with a one-message chat request and a constant
upstream. -/
theorem chat_annotates_and_isolates_witness :
    chatEndpoint creds8 (some creds8.tenantId) chatReq8 okTransport =
      (.ok { response := chatResp8, tenant_id := creds8.tenantId,
             user_id := creds8.user.userId },
       [{ chatReq8 with stream := false }]) ∧
    (∀ h', isUuid h' = true → h' ≠ creds8.tenantId →
      chatEndpoint creds8 (some h') chatReq8 okTransport =
        (.error (.forbidden "Tenant ID does not match authenticated user"),
          [])) :=
  chat_annotates_and_isolates creds8 chatReq8 okTransport chatResp8 rfl rfl
    rfl

/-- Evaluation of the code at C3's failing input: a request with no
x-tenant-id header is rejected by the Joi header schema as a bad-request
validation failure — not the forbidden outcome the mismatch path produces —
on both the chat and the model-list endpoints, while a mismatching header
is forbidden and a matching one passes. -/
theorem llm_missing_header_is_badRequest :
    (chatEndpoint creds8 none chatReq8 okTransport).1
      = .error (.badRequest "Invalid request headers input") ∧
    (chatEndpoint creds8 none chatReq8 okTransport).2 = [] ∧
    (modelsEndpoint creds8 none (.ok [])).1
      = .error (.badRequest "Invalid request headers input") ∧
    (chatEndpoint creds8 (some uuidB) chatReq8 okTransport).1
      = .error (.forbidden "Tenant ID does not match authenticated user") ∧
    (modelsEndpoint creds8 (some uuidB) (.ok [])).1
      = .error (.forbidden "Tenant ID does not match authenticated user") ∧
    (chatEndpoint creds8 (some creds8.tenantId) chatReq8 okTransport).1
      = .ok { response := chatResp8, tenant_id := creds8.tenantId,
              user_id := creds8.user.userId } :=
  ⟨rfl, rfl, rfl, rfl, rfl, rfl⟩

/-- Evaluation of the code at C4's failing input: the Ollama service layer
wraps the transport failure text, but the chat endpoint converts the thrown
non-Boom error into a generic internal-server badImplementation — not a
bad-gateway wrapping the upstream error text. -/
theorem upstream_failure_yields_internal_error :
    OllamaService.chat failTransport chatReq8 =
      (.error "Ollama request failed: Ollama connection failed",
        [{ chatReq8 with stream := false }]) ∧
    (chatEndpoint creds8 (some creds8.tenantId) chatReq8 failTransport).1
      = .error (.badImplementation "Failed to process chat request") :=
  ⟨rfl, rfl⟩
